import Mathlib

/-!
Shallow embedding of the Ethio Mosaic shop application, covering the
backend facade (`services/backend.ts`), the checkout flow
(`components/CheckoutModal.tsx`), the cart handlers (`App.tsx`) and the
auto-translation pipeline (`AutoTranslatedText` plus
`services/geminiService.ts`).  Mutable class fields become explicit state
records; `localStorage` becomes an association list; async methods become
pure state transformers (the artificial `delay` calls carry no semantic
content and are dropped); a storage write that may throw is modelled by a
boolean success flag.  Prices are embedded as rationals.
-/

namespace EthioShop

/-- Product record, fields as used across the source (`types.ts` shape
inferred from `App.tsx`, `ProductList.tsx`, `geminiService.ts`). -/
structure Product where
  id : String
  name : String
  description : String
  detailedHistory : String
  price : ℚ
  currency : String
  imageUrl : String
  category : String
  inStock : Bool
  deriving Repr, DecidableEq

/-- CartItem is `Product & \x7b quantity: number \x7d`; embedded as a product
together with a quantity. -/
structure CartItem where
  product : Product
  quantity : ℕ
  deriving Repr, DecidableEq

/-- Shipping details captured by the checkout shipping form
(`handleShippingSubmit` in `CheckoutModal.tsx`). -/
structure ShippingDetails where
  firstName : String
  lastName : String
  email : String
  phone : String
  address : String
  city : String
  postalCode : String
  country : String
  deriving Repr, DecidableEq

/-- Payment method tag, one of the three checkout tabs. -/
inductive PaymentMethod where
  | credit_card
  | paypal
  | bank_transfer
  deriving Repr, DecidableEq

/-- Card network tag selectable in the credit-card form. -/
inductive CardProvider where
  | visa
  | mastercard
  | amex
  deriving Repr, DecidableEq

/-- Order status; orders are created with status `pending`. -/
inductive OrderStatus where
  | pending
  | shipped
  deriving Repr, DecidableEq

/-- Order record as built by `completeOrder` in `CheckoutModal.tsx`. -/
structure Order where
  id : String
  date : String
  items : List CartItem
  subtotal : ℚ
  shippingCost : ℚ
  duties : ℚ
  total : ℚ
  shippingDetails : ShippingDetails
  paymentMethod : PaymentMethod
  cardProvider : Option CardProvider
  language : String
  status : OrderStatus
  deriving Repr, DecidableEq

/-- State of the `BackendService` singleton (`services/backend.ts`): the
three in-memory arrays plus the three persisted `localStorage` records
(`ethio_backend_products` / `_orders` / `_subscribers`), each a JSON
array, modelled directly as lists. -/
structure BackendState where
  products : List Product
  orders : List Order
  subscribers : List String
  storedProducts : List Product
  storedOrders : List Order
  storedSubscribers : List String
  deriving Repr, DecidableEq

/-- A backend state with nothing stored, as after `clearOrders` on a
fresh install with an empty catalog. -/
def emptyBackend : BackendState :=
  { products := [], orders := [], subscribers := [],
    storedProducts := [], storedOrders := [], storedSubscribers := [] }

/-- `deleteProduct(id)`: `this.products = this.products.filter(p => p.id !== id); this.saveProducts();`. -/
def deleteProduct (id : String) (s : BackendState) : BackendState :=
  let ps := s.products.filter (fun p => !(p.id == id))
  { s with products := ps, storedProducts := ps }

/-- `createOrder(order)`: `this.orders.unshift(order); this.saveOrders(); return order;`.
The in-memory unshift happens before the storage write; `writeOk = false`
models `localStorage.setItem` throwing inside `saveOrders`, in which case
the returned promise rejects but the in-memory array keeps the new order. -/
def createOrder (order : Order) (writeOk : Bool) (s : BackendState) :
    Except String Order × BackendState :=
  let orders' := order :: s.orders
  if writeOk then
    (.ok order, { s with orders := orders', storedOrders := orders' })
  else
    (.error "storage write failed", { s with orders := orders' })

/-- `getOrders()`: returns `[...this.orders]` (a copy; in the pure
embedding the list value itself). -/
def getOrders (s : BackendState) : List Order := s.orders

/-- `clearOrders()`: `this.orders = []; this.saveOrders();`. -/
def clearOrders (s : BackendState) : BackendState :=
  { s with orders := [], storedOrders := [] }

/-- `addSubscriber(email)`: unshift and save only when
`!this.subscribers.includes(email)` (exact string comparison). -/
def addSubscriber (email : String) (s : BackendState) : BackendState :=
  if s.subscribers.contains email then s
  else { s with subscribers := email :: s.subscribers,
                storedSubscribers := email :: s.subscribers }

/-- `getSubscribers()`: returns `[...this.subscribers]`. -/
def getSubscribers (s : BackendState) : List String := s.subscribers

/-- `addProduct(product)`: unshift with a generated id and save; the
generated id (`prod_${Date.now()}_${random}`) is supplied by the caller
here since the embedding is pure. -/
def addProduct (p : Product) (s : BackendState) : BackendState :=
  { s with products := p :: s.products, storedProducts := p :: s.products }

/-- Partial<Product> update object passed to `updateProduct`. -/
structure ProductUpdate where
  name? : Option String := none
  description? : Option String := none
  detailedHistory? : Option String := none
  price? : Option ℚ := none
  currency? : Option String := none
  imageUrl? : Option String := none
  category? : Option String := none
  inStock? : Option Bool := none
  deriving Repr, DecidableEq

/-- Spread-merge `\x7b ...p, ...u \x7d`: each field present in the update
replaces the corresponding field of `p`; the merge builds a new object,
so the original product value is not mutated. -/
def applyUpdate (u : ProductUpdate) (p : Product) : Product :=
  { p with
    name := u.name?.getD p.name
    description := u.description?.getD p.description
    detailedHistory := u.detailedHistory?.getD p.detailedHistory
    price := u.price?.getD p.price
    currency := u.currency?.getD p.currency
    imageUrl := u.imageUrl?.getD p.imageUrl
    category := u.category?.getD p.category
    inStock := u.inStock?.getD p.inStock }

/-- `updateProduct(id, updates)`: `findIndex`, throw if absent, otherwise
replace the found slot with the merged object and save.  The returned
product value is carried by the state; only the state matters to the
claims below.  The inner `none` branch is unreachable since `findIdx?`
returns an index within bounds. -/
def updateProduct (id : String) (u : ProductUpdate) (s : BackendState) :
    Except String BackendState :=
  match s.products.findIdx? (fun p => p.id == id) with
  | none => .error "Product not found"
  | some i =>
    match s.products[i]? with
    | none => .error "Product not found"
    | some p =>
      let ps := s.products.set i (applyUpdate u p)
      .ok { s with products := ps, storedProducts := ps }

-- ### Cart handlers (`App.tsx`)

/-- `handleAddToCart`: if a line with the same product id exists, map a
quantity increment over the cart; otherwise append a fresh line with
quantity 1 (spread copy of the product). -/
def handleAddToCart (p : Product) (cart : List CartItem) : List CartItem :=
  if cart.any (fun item => item.product.id == p.id) then
    cart.map (fun item =>
      if item.product.id == p.id then { item with quantity := item.quantity + 1 }
      else item)
  else
    cart ++ [{ product := p, quantity := 1 }]

/-- `handleUpdateCartQuantity`: map over the cart, clamping the matching
line's quantity at `Math.max(1, quantity + delta)`. -/
def handleUpdateCartQuantity (id : String) (delta : ℤ) (cart : List CartItem) :
    List CartItem :=
  cart.map (fun item =>
    if item.product.id == id then
      { item with quantity := (max 1 ((item.quantity : ℤ) + delta)).toNat }
    else item)

/-- `handleRemoveFromCart`: filter out the line with the given id. -/
def handleRemoveFromCart (id : String) (cart : List CartItem) : List CartItem :=
  cart.filter (fun item => !(item.product.id == id))

/-- The product ids of the cart lines, in order. -/
def cartIds (cart : List CartItem) : List String :=
  cart.map (fun item => item.product.id)

/-- Combined application state: the React cart state plus the backend
singleton state. -/
structure AppState where
  cart : List CartItem
  backend : BackendState
  deriving Repr, DecidableEq

/-- The user-level operations that can touch the cart or the catalog
after an order has been created. -/
inductive AppOp where
  | addCart (p : Product)
  | updQty (id : String) (delta : ℤ)
  | removeCart (id : String)
  | addProd (p : Product)
  | updProd (id : String) (u : ProductUpdate)
  | delProd (id : String)
  deriving Repr

/-- Apply one operation to the application state.  A failing
`updateProduct` leaves the state unchanged. -/
def applyOp : AppOp → AppState → AppState
  | .addCart p, st => { st with cart := handleAddToCart p st.cart }
  | .updQty id d, st => { st with cart := handleUpdateCartQuantity id d st.cart }
  | .removeCart id, st => { st with cart := handleRemoveFromCart id st.cart }
  | .addProd p, st => { st with backend := addProduct p st.backend }
  | .updProd id u, st =>
    match updateProduct id u st.backend with
    | .ok s' => { st with backend := s' }
    | .error _ => st
  | .delProd id, st => { st with backend := deleteProduct id st.backend }

/-- Apply a sequence of operations left to right. -/
def applyOps (ops : List AppOp) (st : AppState) : AppState :=
  ops.foldl (fun st op => applyOp op st) st

-- ### Checkout pricing and order construction (`CheckoutModal.tsx`)

/-- `const subtotal = cart.reduce((sum, item) => sum + (item.price * item.quantity), 0);`. -/
def subtotal (cart : List CartItem) : ℚ :=
  cart.foldl (fun sum item => sum + item.product.price * item.quantity) 0

/-- `const shippingCost = 25.00;`. -/
def shippingCost : ℚ := 25

/-- `const importDuties = 12.50;`. -/
def importDuties : ℚ := 25 / 2

/-- `const total = subtotal + shippingCost + importDuties;`. -/
def total (cart : List CartItem) : ℚ :=
  subtotal cart + shippingCost + importDuties

/-- The order literal built inside `completeOrder`: the current cart is
stored as the `items` field, the computed totals and the form data are
copied in, and the status starts as `pending`. -/
def buildOrder (orderRef date : String) (cart : List CartItem)
    (sd : ShippingDetails) (pm : PaymentMethod) (cp : CardProvider)
    (language : String) : Order :=
  { id := orderRef
    date := date
    items := cart
    subtotal := subtotal cart
    shippingCost := shippingCost
    duties := importDuties
    total := total cart
    shippingDetails := sd
    paymentMethod := pm
    cardProvider := if pm = .credit_card then some cp else none
    language := language
    status := .pending }

/-- Wizard steps of the checkout modal. -/
inductive CheckoutStep where
  | shipping
  | payment
  | confirmation
  deriving Repr, DecidableEq

/-- The checkout modal's local state relevant to `completeOrder`. -/
structure CheckoutState where
  step : CheckoutStep
  shippingData : Option ShippingDetails
  isProcessing : Bool
  processingStatus : String
  orderRef : String
  paymentMethod : PaymentMethod
  cardProvider : CardProvider
  deriving Repr, DecidableEq

/-- Result of one `completeOrder` call: the new modal state, the new
backend state, and whether the failure alert was shown. -/
structure CompleteOrderResult where
  checkout : CheckoutState
  backend : BackendState
  alertShown : Bool
  deriving Repr, DecidableEq

/-- `completeOrder` in `CheckoutModal.tsx`: bail out when no shipping
data was captured; otherwise build the order, call the backend, and on
success advance to the confirmation step while on failure stay on the
current step, clear the processing flags and show the alert. -/
def completeOrder (cs : CheckoutState) (cart : List CartItem)
    (date language : String) (writeOk : Bool) (s : BackendState) :
    CompleteOrderResult :=
  match cs.shippingData with
  | none => { checkout := cs, backend := s, alertShown := false }
  | some sd =>
    let o := buildOrder cs.orderRef date cart sd cs.paymentMethod cs.cardProvider language
    match createOrder o writeOk s with
    | (.ok _, s') =>
      { checkout := { cs with isProcessing := false, processingStatus := "",
                              step := .confirmation }
        backend := s'
        alertShown := false }
    | (.error _, s') =>
      { checkout := { cs with isProcessing := false, processingStatus := "" }
        backend := s'
        alertShown := true }

-- ### Card validation (`isValidCreditCard` in `CheckoutModal.tsx`)

/-- JavaScript regex whitespace class `\s`: the ECMAScript WhiteSpace
characters (tab, vertical tab, form feed, space, no-break space,
zero-width no-break space U+FEFF, and the Unicode space separators
U+1680, U+2000 through U+200A, U+202F, U+205F, U+3000) together with
the LineTerminator characters (line feed, carriage return, line
separator U+2028, paragraph separator U+2029). -/
def isJsWhitespace (c : Char) : Bool :=
  c = ' ' || c = '\t' || c = '\n' || c = '\x0b' || c = '\x0c' || c = '\r' ||
  c = '\xa0' || c = '\u1680' || (0x2000 ≤ c.toNat && c.toNat ≤ 0x200a) ||
  c = '\u2028' || c = '\u2029' || c = '\u202f' || c = '\u205f' ||
  c = '\u3000' || c = '\ufeff'

/-- Characters the pre-check regex `/[^0-9-\s]+/` tolerates: digits,
hyphen, whitespace. -/
def allowedChar (c : Char) : Bool :=
  c.isDigit || c = '-' || isJsWhitespace c

/-- `parseInt` of a single digit character. -/
def charToDigit (c : Char) : ℕ := c.toNat - 48

/-- One doubling step of the Luhn loop: `if ((nDigit *= 2) > 9) nDigit -= 9;`. -/
def luhnDouble (d : ℕ) : ℕ := if 2 * d > 9 then 2 * d - 9 else 2 * d

/-- The accumulation loop of `isValidCreditCard`, walking the digit list
from the rightmost digit with the `bEven` flag starting `false` and
toggling each step.  The input list is the digit string reversed
(rightmost first). -/
def luhnSumAux : Bool → List ℕ → ℕ
  | _, [] => 0
  | false, d :: ds => d + luhnSumAux true ds
  | true, d :: ds => luhnDouble d + luhnSumAux false ds

/-- Final checksum `nCheck` over the reversed digit list. -/
def luhnChecksum (ds : List ℕ) : ℕ := luhnSumAux false ds

/-- `isValidCreditCard`: reject if any character is outside
`[0-9-\s]`; strip non-digits (`replace(/\D/g, "")`); require length
13 to 19; accept iff the Luhn checksum is divisible by 10. -/
def isValidCreditCard (value : String) : Bool :=
  if value.data.any (fun c => !(allowedChar c)) then false
  else
    let newValue := value.data.filter Char.isDigit
    if newValue.length < 13 || newValue.length > 19 then false
    else luhnChecksum ((newValue.map charToDigit).reverse) % 10 == 0

/-- The card validator as the spec sentence describes it, word for word:
strip non-digits, require the remaining digit string to have length 13
to 19, and accept exactly when the alternate-doubling checksum is 0
mod 10.  Kept separate from `isValidCreditCard` so the two can be
compared. -/
def luhnSpecAccepts (value : String) : Bool :=
  let ds := value.data.filter Char.isDigit
  decide (13 ≤ ds.length) && decide (ds.length ≤ 19) &&
    (luhnChecksum ((ds.map charToDigit).reverse) % 10 == 0)

-- ### Translation pipeline (`geminiService.ts` and `AutoTranslatedText`)

/-- JavaScript `String.prototype.trim()`: strip leading and trailing
whitespace, embedded as an executable list traversal. -/
def jsTrim (s : String) : String :=
  ⟨(((s.data.dropWhile Char.isWhitespace).reverse.dropWhile Char.isWhitespace).reverse)⟩

/-- Outcome of the remote Gemini call made by `translateText`: the call
either throws, or resolves with an optional response text. -/
inductive RemoteOutcome where
  | failure
  | success (text : Option String)
  deriving Repr, DecidableEq

/-- `translateText(text, code)` in `geminiService.ts`: return `null` for
empty input; on a thrown error catch and return `null`; otherwise trim
the response text and return `null` when it is missing or trims to the
empty string (`result || null`). -/
def translateText (text : String) (outcome : RemoteOutcome) : Option String :=
  if text = "" then none
  else
    match outcome with
    | .failure => none
    | .success none => none
    | .success (some s) =>
      let result := jsTrim s
      if result = "" then none else some result

/-- The `localStorage` key-value store, most recent write first; a read
returns the value of the first matching key. -/
abbrev Storage := List (String × String)

/-- `localStorage.getItem`. -/
def getItem (st : Storage) (k : String) : Option String :=
  (st.find? (fun kv => kv.1 == k)).map Prod.snd

/-- `localStorage.setItem`: the new binding shadows any older one. -/
def setItem (st : Storage) (k v : String) : Storage := (k, v) :: st

/-- `simpleHash` in `AutoTranslatedText`: 32-bit signed wrap-around of
an integer. -/
def toInt32 (n : ℤ) : ℤ := (n + 2 ^ 31) % 2 ^ 32 - 2 ^ 31

/-- One iteration `hash = ((hash << 5) - hash) + char; hash = hash & hash;`
of `simpleHash`: the shift wraps to a signed 32-bit value and the final
`& hash` coerces the sum back to signed 32-bit. -/
def hashStep (hash : ℤ) (c : Char) : ℤ :=
  toInt32 (toInt32 (hash * 32) - hash + c.toNat)

/-- `simpleHash(str)`: fold the step over the characters starting from 0. -/
def simpleHash (s : String) : ℤ := s.data.foldl hashStep 0

/-- The cache key built in step 4 of the pipeline:
`tr_v2_` + language + `_` + hash of the source text. -/
def cacheKey (language value : String) : String :=
  "tr_v2_" ++ language ++ "_" ++ toString (simpleHash value)

/-- JavaScript truthiness of a nullable string: `null`, `undefined` and
the empty string are all falsy. -/
def truthy : Option String → Option String
  | none => none
  | some s => if s = "" then none else some s

/-- The i18n context functions the component reads: the active language,
`getExactTranslation` and `findBestTranslation`.  Both lookups return
`none` where the source would return a falsy value. -/
structure TranslateEnv where
  language : String
  getExactTranslation : String → Option String
  findBestTranslation : String → Option String

/-- Observable result of one run of the `AutoTranslatedText` effect:
the displayed text, the cache afterwards, whether a remote call was
issued, and whether any user-facing error was raised (the component has
no error surface, so this is always false). -/
structure RunResult where
  displayed : String
  cache : Storage
  remoteCalled : Bool
  errorRaised : Bool
  deriving Repr

/-- The translation effect of `AutoTranslatedText` (`App.tsx`),
parametrised by whether the component is still mounted when the remote
promise resolves and by the remote outcome.  Steps in source order:
empty value bails out; English shows the value; the exact i18n key, the
translation memory and the local cache are consulted in turn; otherwise
the remote call is made, and its result is applied and cached only when
the component is still mounted and the result is truthy and differs
from the source text. -/
def runAutoTranslate (env : TranslateEnv) (value : String)
    (translationKey : Option String) (cache : Storage) (mounted : Bool)
    (outcome : RemoteOutcome) (prev : String) : RunResult :=
  if value = "" then
    { displayed := prev, cache := cache, remoteCalled := false, errorRaised := false }
  else if env.language = "en" then
    { displayed := value, cache := cache, remoteCalled := false, errorRaised := false }
  else
    match truthy (translationKey.bind env.getExactTranslation) with
    | some exact =>
      { displayed := exact, cache := cache, remoteCalled := false, errorRaised := false }
    | none =>
    match truthy (env.findBestTranslation value) with
    | some m =>
      { displayed := m, cache := cache, remoteCalled := false, errorRaised := false }
    | none =>
    match truthy (getItem cache (cacheKey env.language value)) with
    | some c =>
      { displayed := c, cache := cache, remoteCalled := false, errorRaised := false }
    | none =>
      if mounted then
        match translateText value outcome with
        | some r =>
          if r = value then
            { displayed := value, cache := cache, remoteCalled := true, errorRaised := false }
          else
            { displayed := r, cache := setItem cache (cacheKey env.language value) r,
              remoteCalled := true, errorRaised := false }
        | none =>
          { displayed := value, cache := cache, remoteCalled := true, errorRaised := false }
      else
        { displayed := prev, cache := cache, remoteCalled := true, errorRaised := false }

-- ### Sample values used in concrete instances

/-- A concrete in-stock product priced 100.00. -/
def sampleProduct : Product :=
  { id := "p1", name := "Mesob Basket", description := "Handwoven basket",
    detailedHistory := "Traditional craft", price := 100, currency := "€",
    imageUrl := "https://example.com/mesob.jpg", category := "Home", inStock := true }

/-- A concrete shipping form submission. -/
def sampleShipping : ShippingDetails :=
  { firstName := "Abebe", lastName := "Bikila", email := "abebe@example.com",
    phone := "+32 470 00 00 00", address := "Main St 1", city := "Brussels",
    postalCode := "1000", country := "Belgium" }

/-- A backend state whose catalog holds the sample product, with the
persisted copy in sync (the invariant `init`/`saveProducts` maintain). -/
def sampleBackend : BackendState :=
  { products := [sampleProduct], orders := [], subscribers := [],
    storedProducts := [sampleProduct], storedOrders := [], storedSubscribers := [] }

/-- A backend state with one subscriber already present. -/
def sampleSubscribed : BackendState :=
  { emptyBackend with subscribers := ["a@x.com"], storedSubscribers := ["a@x.com"] }

/-- A concrete checkout order. -/
def sampleOrder : Order :=
  buildOrder "ETH-7" "2026-01-02T00:00:00.000Z" [{ product := sampleProduct, quantity := 1 }]
    sampleShipping .credit_card .visa "en"

/-- The modal state at the payment step with the shipping form captured. -/
def sampleCheckout : CheckoutState :=
  { step := .payment, shippingData := some sampleShipping, isProcessing := true,
    processingStatus := "Verifying transaction...", orderRef := "ETH-7",
    paymentMethod := .credit_card, cardProvider := .visa }

/-- Translation environment with French active and both dictionary
lookups empty. -/
def envFr : TranslateEnv :=
  { language := "fr", getExactTranslation := fun _ => none,
    findBestTranslation := fun _ => none }

-- ### Helper lemmas

/-- Folding an addition starting from an accumulator equals the
accumulator plus the mapped sum. -/
theorem foldl_add_eq_sum (f : CartItem → ℚ) (l : List CartItem) (a : ℚ) :
    l.foldl (fun s i => s + f i) a = a + (l.map f).sum := by
  induction l generalizing a with
  | nil => simp
  | cons x xs ih => simp only [List.foldl_cons, List.map_cons, List.sum_cons, ih, add_assoc]

/-- Mapping an id-preserving function over a cart does not change the
id list. -/
theorem cartIds_map_of_id_eq (f : CartItem → CartItem) (c : List CartItem)
    (h : ∀ item, (f item).product.id = item.product.id) :
    cartIds (c.map f) = cartIds c := by
  induction c with
  | nil => rfl
  | cons x xs ih =>
    simp only [List.map_cons, cartIds] at *
    simp [h x, ih]

/-- The quantity-increment map of `handleAddToCart` preserves product
ids. -/
theorem bump_id_eq (p : Product) (item : CartItem) :
    ((if item.product.id == p.id then { item with quantity := item.quantity + 1 }
      else item) : CartItem).product.id = item.product.id := by
  split <;> rfl

/-- The quantity-clamp map of `handleUpdateCartQuantity` preserves
product ids. -/
theorem clamp_id_eq (id : String) (d : ℤ) (item : CartItem) :
    ((if item.product.id == id then
        { item with quantity := (max 1 ((item.quantity : ℤ) + d)).toNat }
      else item) : CartItem).product.id = item.product.id := by
  split <;> rfl

/-- Each application-level operation preserves distinctness of the cart
line ids. -/
theorem applyOp_cart_nodup (op : AppOp) (st : AppState)
    (h : (cartIds st.cart).Nodup) : (cartIds (applyOp op st).cart).Nodup := by
  cases op with
  | addCart p =>
    simp only [applyOp]
    unfold handleAddToCart
    by_cases hmem : st.cart.any (fun item => item.product.id == p.id)
    · rw [if_pos hmem, cartIds_map_of_id_eq _ _ (bump_id_eq p)]
      exact h
    · rw [if_neg hmem]
      have hids : cartIds (st.cart ++ [{ product := p, quantity := 1 }])
          = cartIds st.cart ++ [p.id] := by simp [cartIds]
      rw [hids, List.nodup_append]
      refine ⟨h, List.nodup_singleton _, ?_⟩
      intro a ha hb
      simp only [List.mem_singleton] at hb
      subst hb
      rcases List.mem_map.mp ha with ⟨item, hitem, hid⟩
      exact hmem (List.any_eq_true.mpr ⟨item, hitem, by simp [hid]⟩)
  | updQty id d =>
    simpa only [applyOp, handleUpdateCartQuantity,
      cartIds_map_of_id_eq _ _ (clamp_id_eq id d)] using h
  | removeCart id =>
    simp only [applyOp, handleRemoveFromCart]
    exact ((List.filter_sublist _).map _ |>.nodup h)
  | addProd p => exact h
  | updProd id u =>
    simp only [applyOp]
    split <;> exact h
  | delProd id => exact h

-- ### Claims

/-- A successful `updateProduct` changes only the catalog fields. -/
theorem updateProduct_ok_frame (id : String) (u : ProductUpdate)
    (s s' : BackendState) (h : updateProduct id u s = .ok s') :
    s'.orders = s.orders ∧ s'.storedOrders = s.storedOrders ∧
    s'.subscribers = s.subscribers ∧ s'.storedSubscribers = s.storedSubscribers := by
  unfold updateProduct at h
  split at h
  · exact absurd h (by simp)
  · split at h
    · exact absurd h (by simp)
    · rw [Except.ok.injEq] at h
      subst h
      exact ⟨rfl, rfl, rfl, rfl⟩

/-- No application-level operation touches the order store, in memory
or persisted. -/
theorem applyOp_orders_frame (op : AppOp) (st : AppState) :
    (applyOp op st).backend.orders = st.backend.orders ∧
    (applyOp op st).backend.storedOrders = st.backend.storedOrders := by
  cases op with
  | addCart p => exact ⟨rfl, rfl⟩
  | updQty id d => exact ⟨rfl, rfl⟩
  | removeCart id => exact ⟨rfl, rfl⟩
  | addProd p => exact ⟨rfl, rfl⟩
  | updProd id u =>
    simp only [applyOp]
    split
    · rename_i s' hs'
      have := updateProduct_ok_frame id u st.backend s' hs'
      exact ⟨this.1, this.2.1⟩
    · exact ⟨rfl, rfl⟩
  | delProd id => exact ⟨rfl, rfl⟩

/-- Order-store preservation extends to arbitrary operation sequences. -/
theorem applyOps_orders_frame (ops : List AppOp) (st : AppState) :
    (applyOps ops st).backend.orders = st.backend.orders ∧
    (applyOps ops st).backend.storedOrders = st.backend.storedOrders := by
  induction ops generalizing st with
  | nil => exact ⟨rfl, rfl⟩
  | cons op ops ih =>
    have h1 := applyOp_orders_frame op st
    have h2 := ih (applyOp op st)
    exact ⟨h2.1.trans h1.1, h2.2.trans h1.2⟩

/-- Nodup of the cart ids is preserved along any operation sequence. -/
theorem applyOps_cart_nodup (ops : List AppOp) (st : AppState)
    (h : (cartIds st.cart).Nodup) : (cartIds (applyOps ops st).cart).Nodup := by
  induction ops generalizing st with
  | nil => exact h
  | cons op ops ih => exact ih (applyOp op st) (applyOp_cart_nodup op st h)

/-- C10: `clearOrders` empties only the order history: afterwards
`getOrders` returns the empty list and the persisted order record is
empty, while the in-memory product catalog and subscriber list and
their persisted records are exactly as before the call. -/
theorem clearOrders_only_clears_orders (s : BackendState) :
    getOrders (clearOrders s) = [] ∧
    (clearOrders s).storedOrders = [] ∧
    (clearOrders s).products = s.products ∧
    (clearOrders s).storedProducts = s.storedProducts ∧
    (clearOrders s).subscribers = s.subscribers ∧
    (clearOrders s).storedSubscribers = s.storedSubscribers := by
  simp [clearOrders, getOrders]

/-- C8: `deleteProduct` is total (it returns a state, never an error),
deleting the same id twice equals deleting it once, and deleting an id
absent from the catalog leaves the whole state unchanged (given the
persisted copy being in sync with memory, which `init` and every
mutation maintain). -/
theorem deleteProduct_idempotent_noop :
    (∀ (id : String) (s : BackendState),
       deleteProduct id (deleteProduct id s) = deleteProduct id s) ∧
    (∀ (id : String) (s : BackendState),
       (deleteProduct id s).products.length ≤ s.products.length) ∧
    (∀ (id : String) (s : BackendState),
       id ∉ s.products.map Product.id → s.storedProducts = s.products →
       deleteProduct id s = s) := by
  refine ⟨?_, ?_, ?_⟩
  · intro id s
    simp [deleteProduct, List.filter_filter]
  · intro id s
    simpa [deleteProduct] using List.length_filter_le _ s.products
  · intro id s hid hsync
    have hf : s.products.filter (fun p => !(p.id == id)) = s.products := by
      apply List.filter_eq_self.mpr
      intro p hp
      simp only [Bool.not_eq_true', beq_eq_false_iff_ne]
      intro he
      exact hid (he ▸ List.mem_map_of_mem Product.id hp)
    cases s with
    | mk a b c d e f =>
      simp only [deleteProduct] at *
      simp [hf, hsync]

/-- Witness for C8: deleting an id not in the sample catalog returns the
state unchanged. -/
theorem deleteProduct_idempotent_noop_witness :
    deleteProduct "no-such-id" sampleBackend = sampleBackend :=
  deleteProduct_idempotent_noop.2.2 "no-such-id" sampleBackend (by decide) (by decide)

/-- C6 counterexample: a `createOrder` whose storage write fails still
mutates the in-memory order mirror — starting from an empty order list,
the failed call leaves the new order in memory (while the persisted
record stays empty), so partial state is committed by the failed call. -/
theorem createOrder_failure_mutates_memory :
    (createOrder sampleOrder false emptyBackend).1.isOk = false ∧
    ((createOrder sampleOrder false emptyBackend).2).orders = [sampleOrder] ∧
    emptyBackend.orders = [] ∧
    ([sampleOrder] : List Order) ≠ [] ∧
    ((createOrder sampleOrder false emptyBackend).2).storedOrders = [] := by
  refine ⟨rfl, rfl, rfl, by simp, rfl⟩

/-- C6 amended: if `createOrder` fails with a storage write failure, the
checkout wizard does not advance to Confirmation — it stays on its
current (payment) step with the entered shipping data intact and the
processing overlay cleared, and the failure alert is shown, so the
operation is retryable; the persisted order record is unchanged by the
failed call, but the backend's in-memory order mirror does retain the
appended order (partial in-memory state, cleared only on reload). -/
theorem completeOrder_failure_retryable
    (cs : CheckoutState) (cart : List CartItem) (date lang : String)
    (s : BackendState) (sd : ShippingDetails)
    (hsd : cs.shippingData = some sd) (hstep : cs.step = .payment) :
    (completeOrder cs cart date lang false s).checkout.step = .payment ∧
    (completeOrder cs cart date lang false s).checkout.shippingData = some sd ∧
    (completeOrder cs cart date lang false s).checkout.isProcessing = false ∧
    (completeOrder cs cart date lang false s).alertShown = true ∧
    (completeOrder cs cart date lang false s).backend.storedOrders = s.storedOrders ∧
    (completeOrder cs cart date lang false s).backend.orders
      = buildOrder cs.orderRef date cart sd cs.paymentMethod cs.cardProvider lang
          :: s.orders := by
  simp [completeOrder, hsd, createOrder, hstep]

/-- Witness for C6's amended statement: the failed sample checkout stays
on the payment step with the alert shown and the persisted record
untouched. -/
theorem completeOrder_failure_retryable_witness :
    (completeOrder sampleCheckout [{ product := sampleProduct, quantity := 1 }]
      "2026-01-02T00:00:00.000Z" "en" false emptyBackend).checkout.step = .payment ∧
    (completeOrder sampleCheckout [{ product := sampleProduct, quantity := 1 }]
      "2026-01-02T00:00:00.000Z" "en" false emptyBackend).alertShown = true :=
  ⟨(completeOrder_failure_retryable sampleCheckout
      [{ product := sampleProduct, quantity := 1 }] "2026-01-02T00:00:00.000Z" "en"
      emptyBackend sampleShipping rfl rfl).1,
   (completeOrder_failure_retryable sampleCheckout
      [{ product := sampleProduct, quantity := 1 }] "2026-01-02T00:00:00.000Z" "en"
      emptyBackend sampleShipping rfl rfl).2.2.2.1⟩

/-- C9 counterexample: after adding "a@example.com" then
"b@example.com" to an empty backend, `getSubscribers` returns the most
recently added email first, not insertion order. -/
theorem getSubscribers_newest_first :
    getSubscribers (addSubscriber "b@example.com" (addSubscriber "a@example.com" emptyBackend))
      = ["b@example.com", "a@example.com"] ∧
    getSubscribers (addSubscriber "b@example.com" (addSubscriber "a@example.com" emptyBackend))
      ≠ ["a@example.com", "b@example.com"] := by
  decide

/-- C9 amended: `addSubscriber` deduplicates by exact case-sensitive
string match (re-adding a present email leaves the state unchanged; two
emails differing only in case are both stored), and `getSubscribers`
returns the subscribers in reverse insertion order, most recently added
first. -/
theorem addSubscriber_dedup_exact_prepend :
    (∀ (e : String) (s : BackendState), e ∈ s.subscribers → addSubscriber e s = s) ∧
    (∀ (e : String) (s : BackendState), e ∉ s.subscribers →
       getSubscribers (addSubscriber e s) = e :: getSubscribers s ∧
       (addSubscriber e s).storedSubscribers = e :: s.subscribers) ∧
    getSubscribers (addSubscriber "A@x.com" (addSubscriber "a@x.com" emptyBackend))
      = ["A@x.com", "a@x.com"] := by
  refine ⟨?_, ?_, by decide⟩
  · intro e s he
    have hc : s.subscribers.contains e = true := List.elem_eq_true_of_mem he
    simp only [addSubscriber, hc, if_true]
  · intro e s he
    simp [addSubscriber, getSubscribers, he]

/-- Witness for C9's amended statement: re-adding the present email is a
no-op and adding a fresh email prepends it. -/
theorem addSubscriber_dedup_exact_prepend_witness :
    addSubscriber "a@x.com" sampleSubscribed = sampleSubscribed ∧
    getSubscribers (addSubscriber "b@x.com" sampleSubscribed) = ["b@x.com", "a@x.com"] :=
  ⟨addSubscriber_dedup_exact_prepend.1 "a@x.com" sampleSubscribed (by decide),
   (addSubscriber_dedup_exact_prepend.2.1 "b@x.com" sampleSubscribed (by decide)).1⟩

/-- C7: starting from the empty cart, after any sequence of add-to-cart,
remove-from-cart and update-quantity operations (and any catalog
operations) the cart holds at most one line per product id; adding a
product whose id is already in the cart is exactly a quantity increment
of the matching line and never creates a second line. -/
theorem cart_one_line_per_id :
    (∀ (ops : List AppOp) (s0 : BackendState),
       (cartIds (applyOps ops { cart := [], backend := s0 }).cart).Nodup) ∧
    (∀ (p : Product) (c : List CartItem), p.id ∈ cartIds c →
       handleAddToCart p c =
         c.map (fun item =>
           if item.product.id == p.id then { item with quantity := item.quantity + 1 }
           else item) ∧
       cartIds (handleAddToCart p c) = cartIds c) := by
  constructor
  · intro ops s0
    exact applyOps_cart_nodup ops _ (by simp [cartIds])
  · intro p c hp
    rcases List.mem_map.mp hp with ⟨item, hitem, hid⟩
    have hany : c.any (fun item => item.product.id == p.id) = true :=
      List.any_eq_true.mpr ⟨item, hitem, by simp [hid]⟩
    have heq : handleAddToCart p c =
        c.map (fun item =>
          if item.product.id == p.id then { item with quantity := item.quantity + 1 }
          else item) := by
      unfold handleAddToCart
      rw [if_pos hany]
    exact ⟨heq, heq ▸ cartIds_map_of_id_eq _ _ (bump_id_eq p)⟩

/-- Witness for C7: adding the sample product to a cart that already
contains it keeps the id list unchanged (no second line). -/
theorem cart_one_line_per_id_witness :
    cartIds (handleAddToCart sampleProduct [{ product := sampleProduct, quantity := 2 }])
      = cartIds [{ product := sampleProduct, quantity := 2 }] :=
  (cart_one_line_per_id.2 sampleProduct
    [{ product := sampleProduct, quantity := 2 }] (by decide)).2

/-- C1: a successful `createOrder` of the order built at checkout is a
pure append: `getOrders` afterwards is the new order consed onto the
previous list (so every pre-existing order is unchanged), the new order
occurs exactly once when it was not already present, and the stored
order is a snapshot of the cart at checkout time — after any further
sequence of cart or catalog operations the order store is unchanged and
the stored order still carries the original items and totals. -/
theorem createOrder_snapshot_append
    (sref date lang : String) (cart : List CartItem) (sd : ShippingDetails)
    (pm : PaymentMethod) (cp : CardProvider) (s : BackendState)
    (h : buildOrder sref date cart sd pm cp lang ∉ s.orders) :
    getOrders ((createOrder (buildOrder sref date cart sd pm cp lang) true s).2)
      = buildOrder sref date cart sd pm cp lang :: getOrders s ∧
    (getOrders ((createOrder (buildOrder sref date cart sd pm cp lang) true s).2)).count
      (buildOrder sref date cart sd pm cp lang) = 1 ∧
    (∀ ops : List AppOp,
       (applyOps ops
          { cart := cart,
            backend := (createOrder (buildOrder sref date cart sd pm cp lang) true s).2
          }).backend.orders
         = buildOrder sref date cart sd pm cp lang :: s.orders) ∧
    (buildOrder sref date cart sd pm cp lang).items = cart ∧
    (buildOrder sref date cart sd pm cp lang).total = total cart := by
  refine ⟨rfl, ?_, ?_, rfl, rfl⟩
  · show (buildOrder sref date cart sd pm cp lang :: s.orders).count _ = 1
    rw [List.count_cons_self, List.count_eq_zero.mpr h]
  · intro ops
    exact (applyOps_orders_frame ops _).1

/-- Witness for C1: creating the sample order against the empty backend
stores exactly that order. -/
theorem createOrder_snapshot_append_witness :
    getOrders ((createOrder
      (buildOrder "ETH-1" "2026-01-01T00:00:00.000Z"
        [{ product := sampleProduct, quantity := 1 }] sampleShipping
        .credit_card .visa "en") true emptyBackend).2)
      = [buildOrder "ETH-1" "2026-01-01T00:00:00.000Z"
          [{ product := sampleProduct, quantity := 1 }] sampleShipping
          .credit_card .visa "en"] :=
  (createOrder_snapshot_append "ETH-1" "2026-01-01T00:00:00.000Z" "en"
    [{ product := sampleProduct, quantity := 1 }] sampleShipping
    .credit_card .visa emptyBackend (by simp [emptyBackend])).1

/-- C3 counterexample: the input "4539a148803436467" strips to the digit
string "4539148803436467" of length 16 whose alternate-doubling checksum
is 0 mod 10, so the strip-then-Luhn rule of the claim accepts it, yet
`isValidCreditCard` rejects it — the validator first rejects any input
containing a character outside digits, hyphens and whitespace. -/
theorem luhn_precheck_rejects_strippable_input :
    luhnSpecAccepts "4539a148803436467" = true ∧
    isValidCreditCard "4539a148803436467" = false := by
  decide

/-- C3 amended: the card validator first rejects any input containing a
character other than digits, hyphens and JavaScript `\s` whitespace; on
the remaining inputs it strips non-digits, requires the digit string to
have length 13 to 19, and accepts exactly when the alternate-doubling
checksum is 0 mod 10; "4539148803436467" is accepted (also with a
trailing line separator U+2028, which `\s` tolerates) and
"4539148803436468" is rejected. -/
theorem isValidCreditCard_characterization :
    (∀ value : String,
       isValidCreditCard value = (value.data.all allowedChar && luhnSpecAccepts value)) ∧
    isValidCreditCard "4539148803436467" = true ∧
    isValidCreditCard "4539148803436467\u2028" = true ∧
    isValidCreditCard "4539148803436468" = false := by
  refine ⟨?_, by decide, by decide, by decide⟩
  intro v
  unfold isValidCreditCard luhnSpecAccepts
  by_cases hany : v.data.any (fun c => !(allowedChar c))
  · have hall : v.data.all allowedChar = false := by
      rcases List.any_eq_true.mp hany with ⟨c, hc, hnc⟩
      rw [← Bool.not_eq_true, List.all_eq_true]
      intro hf
      have := hf c hc
      simp [this] at hnc
    simp [hany, hall]
  · have hall : v.data.all allowedChar = true := by
      rw [List.all_eq_true]
      intro c hc
      by_contra hq
      exact hany (List.any_eq_true.mpr ⟨c, hc, by simpa using hq⟩)
    rw [if_neg hany, hall, Bool.true_and]
    set ds := v.data.filter Char.isDigit with hds
    by_cases h1 : ds.length < 13
    · have : ¬ (13 ≤ ds.length) := by omega
      simp [h1, this]
    · by_cases h2 : ds.length > 19
      · have : ¬ (ds.length ≤ 19) := by omega
        simp [h1, h2, this]
      · have e1 : 13 ≤ ds.length := by omega
        have e2 : ds.length ≤ 19 := by omega
        simp [h1, h2, e1, e2]

/-- C2: the checkout total is the cart subtotal plus the fixed shipping
constant 25.00 plus the fixed duties constant 12.50, the subtotal being
the sum of unit price times quantity over the cart lines; a cart with
one item priced 100.00 at quantity 1 yields subtotal 100.00 and total
137.50. -/
theorem checkout_total_formula :
    shippingCost = 25 ∧ importDuties = 25 / 2 ∧
    (∀ cart : List CartItem,
       total cart = subtotal cart + shippingCost + importDuties ∧
       subtotal cart =
         (cart.map (fun item => item.product.price * (item.quantity : ℚ))).sum) ∧
    subtotal [{ product := sampleProduct, quantity := 1 }] = 100 ∧
    total [{ product := sampleProduct, quantity := 1 }] = 275 / 2 := by
  refine ⟨rfl, rfl, fun cart => ⟨rfl, ?_⟩, ?_, ?_⟩
  · simpa [subtotal] using
      foldl_add_eq_sum (fun item => item.product.price * (item.quantity : ℚ)) cart 0
  · norm_num [subtotal, sampleProduct]
  · norm_num [total, subtotal, sampleProduct, shippingCost, importDuties]

/-- A translation result returned as `some` is never the empty string:
`translateText` trims the response and maps the empty trim to `none`. -/
theorem translateText_some_ne_empty {text : String} {o : RemoteOutcome} {r : String}
    (h : translateText text o = some r) : r ≠ "" := by
  unfold translateText at h
  split at h
  · exact absurd h (by simp)
  · match o with
    | .failure => exact absurd h (by simp)
    | .success none => exact absurd h (by simp)
    | .success (some s) =>
      simp only at h
      split at h
      · exact absurd h (by simp)
      · rename_i hne
        rw [Option.some.injEq] at h
        subst h
        exact hne

/-- C4: when the earlier pipeline tiers miss and the remote call fails
or returns null/empty (modelled as `none`) or returns text identical to
the input, the mounted consumer displays the source text, the cache is
unchanged, no user-facing error is raised, a later run over the
resulting cache issues another remote call, and a cache entry is
written only when the remote call returns a distinct non-empty
string. -/
theorem translate_nonresult_not_cached
    (env : TranslateEnv) (value : String) (key : Option String)
    (cache : Storage) (outcome : RemoteOutcome) (prev : String)
    (hlang : env.language ≠ "en") (hv : value ≠ "")
    (hexact : truthy (key.bind env.getExactTranslation) = none)
    (hmem : truthy (env.findBestTranslation value) = none)
    (hcache : truthy (getItem cache (cacheKey env.language value)) = none)
    (hres : translateText value outcome = none ∨
            translateText value outcome = some value) :
    (runAutoTranslate env value key cache true outcome prev).displayed = value ∧
    (runAutoTranslate env value key cache true outcome prev).cache = cache ∧
    (runAutoTranslate env value key cache true outcome prev).remoteCalled = true ∧
    (runAutoTranslate env value key cache true outcome prev).errorRaised = false ∧
    (∀ (outcome' : RemoteOutcome) (mounted' : Bool) (prev' : String),
       (runAutoTranslate env value key
          (runAutoTranslate env value key cache true outcome prev).cache
          mounted' outcome' prev').remoteCalled = true) ∧
    (∀ outcome' : RemoteOutcome,
       (runAutoTranslate env value key cache true outcome' prev).cache ≠ cache →
       ∃ t, translateText value outcome' = some t ∧ t ≠ value ∧ t ≠ "") := by
  have hmain : ∀ (outcome' : RemoteOutcome) (mounted' : Bool) (prev' : String),
      runAutoTranslate env value key cache mounted' outcome' prev' =
        if mounted' then
          match translateText value outcome' with
          | some r =>
            if r = value then
              { displayed := value, cache := cache, remoteCalled := true, errorRaised := false }
            else
              { displayed := r, cache := setItem cache (cacheKey env.language value) r,
                remoteCalled := true, errorRaised := false }
          | none =>
            { displayed := value, cache := cache, remoteCalled := true, errorRaised := false }
        else
          { displayed := prev', cache := cache, remoteCalled := true, errorRaised := false } := by
    intro outcome' mounted' prev'
    unfold runAutoTranslate
    rw [if_neg hv, if_neg hlang, hexact, hmem, hcache]
  have hrun : runAutoTranslate env value key cache true outcome prev =
      { displayed := value, cache := cache, remoteCalled := true, errorRaised := false } := by
    rw [hmain outcome true prev]
    rcases hres with hres | hres <;> simp [hres]
  refine ⟨by rw [hrun], by rw [hrun], by rw [hrun], by rw [hrun], ?_, ?_⟩
  · intro outcome' mounted' prev'
    rw [hrun]
    rw [hmain outcome' mounted' prev']
    cases mounted' <;> simp
    cases htr : translateText value outcome' <;> simp
    split <;> simp
  · intro outcome' hdiff
    rw [hmain outcome' true prev] at hdiff
    simp only [if_true] at hdiff
    cases htr : translateText value outcome' with
    | none => rw [htr] at hdiff; simp at hdiff
    | some t =>
      rw [htr] at hdiff
      by_cases ht : t = value
      · simp [ht] at hdiff
      · exact ⟨t, rfl, ht, translateText_some_ne_empty htr⟩

/-- Witness for C4: with French active, empty dictionaries and cache,
and a remote failure, the mounted run displays the source text and
writes nothing to the cache. -/
theorem translate_nonresult_not_cached_witness :
    (runAutoTranslate envFr "hello" none [] true .failure "prev").displayed = "hello" ∧
    (runAutoTranslate envFr "hello" none [] true .failure "prev").cache = [] :=
  ⟨(translate_nonresult_not_cached envFr "hello" none [] .failure "prev"
      (by decide) (by decide) rfl rfl rfl (Or.inl rfl)).1,
   (translate_nonresult_not_cached envFr "hello" none [] .failure "prev"
      (by decide) (by decide) rfl rfl rfl (Or.inl rfl)).2.1⟩

/-- C5 counterexample: the remote call resolves after unmount with the
distinct non-empty translation "bonjour", yet the cache stays empty —
the mount check precedes the cache write in the component, so the write
does not survive the unmount as the claim asserts. -/
theorem unmount_discards_cache_write :
    translateText "hello" (.success (some "bonjour")) = some "bonjour" ∧
    "bonjour" ≠ "hello" ∧
    (runAutoTranslate envFr "hello" none [] false
      (.success (some "bonjour")) "hello").cache = [] ∧
    getItem (runAutoTranslate envFr "hello" none [] false
      (.success (some "bonjour")) "hello").cache (cacheKey "fr" "hello") = none := by
  refine ⟨by decide, by decide, rfl, rfl⟩

/-- C5 amended: if the consumer unmounts before the outstanding remote
call resolves, the result is discarded entirely — it is neither applied
to the stale display target nor written to the process-wide cache,
whatever the remote outcome; the cache write completes only when the
consumer is still mounted. -/
theorem translate_unmounted_discards
    (env : TranslateEnv) (value : String) (key : Option String)
    (cache : Storage) (outcome : RemoteOutcome) (prev : String)
    (hlang : env.language ≠ "en") (hv : value ≠ "")
    (hexact : truthy (key.bind env.getExactTranslation) = none)
    (hmem : truthy (env.findBestTranslation value) = none)
    (hcache : truthy (getItem cache (cacheKey env.language value)) = none) :
    (runAutoTranslate env value key cache false outcome prev).displayed = prev ∧
    (runAutoTranslate env value key cache false outcome prev).cache = cache ∧
    (runAutoTranslate env value key cache false outcome prev).remoteCalled = true := by
  unfold runAutoTranslate
  rw [if_neg hv, if_neg hlang, hexact, hmem, hcache]
  exact ⟨rfl, rfl, rfl⟩

/-- Witness for C5's amended statement: an unmounted consumer whose
remote call resolved with a distinct non-empty translation leaves the
cache empty and the display unchanged. -/
theorem translate_unmounted_discards_witness :
    (runAutoTranslate envFr "ancient craft" none [] false
      (.success (some "artisanat ancien")) "ancient craft").cache = [] ∧
    (runAutoTranslate envFr "ancient craft" none [] false
      (.success (some "artisanat ancien")) "ancient craft").displayed = "ancient craft" :=
  ⟨(translate_unmounted_discards envFr "ancient craft" none []
      (.success (some "artisanat ancien")) "ancient craft"
      (by decide) (by decide) rfl rfl rfl).2.1,
   (translate_unmounted_discards envFr "ancient craft" none []
      (.success (some "artisanat ancien")) "ancient craft"
      (by decide) (by decide) rfl rfl rfl).1⟩

end EthioShop
